import Mathlib

/-!
Verification of the core logic of the panobubble panorama viewer.

The development shallowly embeds the two source files of the repository:

* `src/metadata.rs` — extraction of the GPano crop descriptor from raw image
  bytes (`parse`, `find_xmp`, `parse_gpano`, and the per-field lookup
  `field`).  Bytes are modelled as `List Nat`, 32-bit integers as `Nat`
  values bounded by `2 ^ 32` at parse time, and the `f32` ratio divisions as
  exact rational divisions.  The external XML library (`elementtree`) is
  modelled at its boundary: an `Element` tree type mirroring what the crate
  exposes, with the byte-to-tree parser (`Element::from_reader`) passed in as
  an explicit function parameter, since it is an external collaborator and
  the repository's own logic never inspects its internals.

* `src/main.rs` — the event-loop state machine (keyboard rates, mouse drag
  session, wheel zoom, per-tick integration and idle detection) and the
  fragment-shader projection.  `f32`/`f64` arithmetic is modelled over `ℝ`;
  the shader's decimal constant `PI` is modelled as the exact `Real.pi` it
  approximates.
-/

namespace Panobubble

/-! ## Embedding of the elementtree boundary (`Element`) -/

/-- An XML element as exposed by the `elementtree` crate at the points the
repository uses it: a namespaced tag, namespaced attributes, child elements
and text content. -/
inductive Element : Type where
  | mk : String × String → List ((String × String) × String) → List Element → String → Element

/-- The namespaced tag of an element. -/
def Element.tag : Element → String × String
  | .mk t _ _ _ => t

/-- The attribute list of an element. -/
def Element.attrs : Element → List ((String × String) × String)
  | .mk _ a _ _ => a

/-- The child elements of an element. -/
def Element.children : Element → List Element
  | .mk _ _ c _ => c

/-- The text content of an element (`Element::text`). -/
def Element.text : Element → String
  | .mk _ _ _ s => s

/-- `Element::find`: the first child whose qualified tag matches. -/
def Element.find (e : Element) (q : String × String) : Option Element :=
  e.children.find? (fun c => decide (c.tag = q))

/-- `Element::find_all`: all children whose qualified tag matches. -/
def Element.find_all (e : Element) (q : String × String) : List Element :=
  e.children.filter (fun c => decide (c.tag = q))

/-- `Element::get_attr`: the value of the attribute with the given qualified
name, if present. -/
def Element.get_attr (e : Element) (q : String × String) : Option String :=
  (e.attrs.find? (fun a => decide (a.1 = q))).map (fun a => a.2)

/-! ## Embedding of `src/metadata.rs` -/

/-- The RDF namespace constant of `parse_gpano`. -/
def RDF : String := "http://www.w3.org/1999/02/22-rdf-syntax-ns#"

/-- The GPano namespace constant of `parse_gpano`. -/
def GPANO : String := "http://ns.google.com/photos/1.0/panorama/"

/-- The crop descriptor (`PanoMeta` in `metadata.rs`).  The `f32` fields are
modelled as exact rationals. -/
structure PanoMeta where
  width_ratio : ℚ
  height_ratio : ℚ
  crop_left : ℚ
  crop_top : ℚ
deriving DecidableEq

/-- Rust's `str::trim`: drop whitespace from both ends.  (Rust trims Unicode
whitespace; the model covers the ASCII whitespace that GPano fields use.) -/
def rustTrim (s : String) : String :=
  ⟨((s.data.dropWhile Char.isWhitespace).reverse.dropWhile Char.isWhitespace).reverse⟩

/-- Rust's `u32::from_str`: an optional leading `+`, then one or more ASCII
digits, value below `2 ^ 32`; anything else fails. -/
def parseU32 (s : String) : Option Nat :=
  let cs := match s.data with
    | '+' :: rest => rest
    | cs => cs
  if cs = [] then none
  else if cs.all Char.isDigit then
    let n := cs.foldl (fun acc c => acc * 10 + (c.toNat - 48)) 0
    if n < 2 ^ 32 then some n else none
  else none

/-- The nested helper `field` of `parse_gpano`: read a GPano property from a
same-named child element's text, falling back to a same-named attribute only
when no such child exists, then trim and parse it; a missing or unparsable
value yields the `Missing GPano:` error naming the field. -/
def field {α : Type} (p : String → Option α) (e : Element) (tag : String) :
    Except String α :=
  match (((e.find (GPANO, tag)).map Element.text).orElse
      (fun _ => e.get_attr (GPANO, tag))).bind (fun v => p (rustTrim v)) with
  | some x => Except.ok x
  | none => Except.error ("Missing GPano:" ++ tag)

/-- `field::<String>`: Rust's `String::from_str` never fails. -/
def fieldString (e : Element) (tag : String) : Except String String :=
  field (fun s => some s) e tag

/-- `field::<u32>`. -/
def fieldU32 (e : Element) (tag : String) : Except String Nat :=
  field parseU32 e tag

/-- Rust's `Option::ok_or`: turn an optional value into a result with the
given error for `None`. -/
def okOr {α : Type} (o : Option α) (e : String) : Except String α :=
  match o with
  | some x => Except.ok x
  | none => Except.error e

/-- The `Description`-record lookup of `parse_gpano`: the first
`rdf:Description` child of the `rdf:RDF` element that declares
`GPano:UsePanoramaViewer` either as a child element or as an attribute. -/
def findDescription (root : Element) : Option Element :=
  (root.find (RDF, "RDF")).bind (fun r =>
    (r.find_all (RDF, "Description")).find? (fun e =>
      (e.find (GPANO, "UsePanoramaViewer")).isSome ||
        (e.get_attr (GPANO, "UsePanoramaViewer")).isSome))

/-- `parse_gpano`: read the seven GPano fields from the description record
and build the crop descriptor from the four pixel ratios. -/
def parse_gpano (root : Element) : Except String PanoMeta := do
  let elem ← okOr (findDescription root) "No GPano Description tag"
  let projection_type ← fieldString elem "ProjectionType"
  if projection_type != "equirectangular" then
    Except.error ("Unsupported projection type " ++ projection_type)
  else do
    let cropped_width ← fieldU32 elem "CroppedAreaImageWidthPixels"
    let cropped_height ← fieldU32 elem "CroppedAreaImageHeightPixels"
    let full_width ← fieldU32 elem "FullPanoWidthPixels"
    let full_height ← fieldU32 elem "FullPanoHeightPixels"
    let cropped_left ← fieldU32 elem "CroppedAreaLeftPixels"
    let cropped_top ← fieldU32 elem "CroppedAreaTopPixels"
    Except.ok
      { width_ratio := (cropped_width : ℚ) / (full_width : ℚ)
        height_ratio := (cropped_height : ℚ) / (full_height : ℚ)
        crop_left := (cropped_left : ℚ) / (full_width : ℚ)
        crop_top := (cropped_top : ℚ) / (full_height : ℚ) }

/-- `memchr::memmem::find`: the byte offset of the first occurrence of the
needle in the haystack. -/
def memmemFind (hay needle : List Nat) : Option Nat :=
  if needle.isPrefixOf hay then some 0
  else
    match hay with
    | [] => none
    | _ :: t => (memmemFind t needle).map (fun i => i + 1)

/-- The byte string `<x:xmpmeta`. -/
def startPattern : List Nat := "<x:xmpmeta".data.map Char.toNat

/-- The byte string `</x:xmpmeta>`. -/
def endPattern : List Nat := "</x:xmpmeta>".data.map Char.toNat

/-- `Result::is_err`. -/
def isErrB {ε α : Type} : Except ε α → Bool
  | .error _ => true
  | .ok _ => false

/-- `find_xmp`: locate the XMP packet between the start and end markers and
hand the extracted byte range to the XML parser.  The external parser
(`elementtree`'s `Element::from_reader`, including its
`Failed to parse XMP` error wrapping) is the function parameter
`fromReader`. -/
def find_xmp (fromReader : List Nat → Except String Element) (buf : List Nat) :
    Except String Element :=
  match memmemFind buf startPattern with
  | some start =>
    match memmemFind (buf.drop start) endPattern with
    | some e => fromReader ((buf.drop start).take (e + endPattern.length))
    | none => Except.error "No XMP found in image"
  | none => Except.error "No XMP found in image"

/-- `metadata::parse`: run the GPano pipeline, substituting the full-sphere
descriptor when it fails and the integer-truncated half-width equals the
height. -/
def parse (fromReader : List Nat → Except String Element) (buf : List Nat)
    (wh : Nat × Nat) : Except String PanoMeta :=
  let gpano_result := (find_xmp fromReader buf).bind parse_gpano
  if isErrB gpano_result && (wh.1 / 2 == wh.2) then
    Except.ok { width_ratio := 1, height_ratio := 1, crop_left := 0, crop_top := 0 }
  else
    gpano_result

/-! ## Embedding of the `main.rs` event-loop state machine

The loop-local variables of `main.rs` (`yaw`, `yaw_rate`, `pitch`,
`pitch_rate`, `zoom`, `zoom_rate`, `mouse_pos`, `drag_state`) become one
state record; each `WindowEvent` arm becomes a function on it.  `f64`
values are modelled over `ℝ`. -/

/-- The mutable loop state captured by the event handler in `main`. -/
structure AppState where
  yaw : ℝ
  yaw_rate : ℝ
  pitch : ℝ
  pitch_rate : ℝ
  zoom : ℝ
  zoom_rate : ℝ
  mouse_pos : ℝ × ℝ
  drag_state : Option ((ℝ × ℝ) × (ℝ × ℝ))

/-- `ElementState` of the input events. -/
inductive PressState : Type where
  | pressed
  | released

/-- The virtual key codes the handler matches on; `other` stands for every
key code that falls into the wildcard arm. -/
inductive VKey : Type where
  | left
  | right
  | up
  | down
  | pageUp
  | pageDown
  | other

/-- The `WindowEvent::KeyboardInput` arm: each arrow or page key sets the
rate of its axis on press and resets it to the neutral value on release;
everything else is ignored. -/
noncomputable def keyboardInput (st : AppState) (key : Option VKey) (s : PressState) :
    AppState :=
  let speed : ℝ := 1 / 4 / 60
  match key, s with
  | some .left, .pressed => { st with yaw_rate := -speed }
  | some .left, .released => { st with yaw_rate := 0 }
  | some .right, .pressed => { st with yaw_rate := speed }
  | some .right, .released => { st with yaw_rate := 0 }
  | some .down, .pressed => { st with pitch_rate := -speed }
  | some .down, .released => { st with pitch_rate := 0 }
  | some .up, .pressed => { st with pitch_rate := speed }
  | some .up, .released => { st with pitch_rate := 0 }
  | some .pageUp, .pressed => { st with zoom_rate := 99 / 100 }
  | some .pageUp, .released => { st with zoom_rate := 1 }
  | some .pageDown, .pressed => { st with zoom_rate := 101 / 100 }
  | some .pageDown, .released => { st with zoom_rate := 1 }
  | _, _ => st

/-- The `WindowEvent::MouseInput` arm: press opens a drag session anchored at
the current pointer position and orientation, release closes it. -/
def mouseInput (st : AppState) (s : PressState) : AppState :=
  match s with
  | .pressed => { st with drag_state := some (st.mouse_pos, (st.yaw, st.pitch)) }
  | .released => { st with drag_state := none }

/-- The `WindowEvent::Focused` arm: losing focus closes the drag session;
gaining focus falls into the wildcard arm. -/
def focused (st : AppState) (f : Bool) : AppState :=
  match f with
  | false => { st with drag_state := none }
  | true => st

/-- The `WindowEvent::CursorMoved` arm: normalize the pointer position (the
vertical coordinate additionally scaled by the aspect ratio `h / w`), and if
a drag session is open recompute yaw and pitch from that session's anchor. -/
noncomputable def cursorMoved (st : AppState) (px py w h : ℝ) : AppState :=
  let mouse_pos : ℝ × ℝ := (px / w * 2 - 1, (py / h * 2 - 1) * (h / w))
  match st.drag_state with
  | some ((start_x, start_y), (start_yaw, start_pitch)) =>
    { st with
      mouse_pos := mouse_pos
      yaw := (Real.arctan start_x - Real.arctan mouse_pos.1) / st.zoom + start_yaw
      pitch := (Real.arctan mouse_pos.2 - Real.arctan start_y) / st.zoom + start_pitch }
  | none => { st with mouse_pos := mouse_pos }

/-- The `MouseScrollDelta::LineDelta` arm. -/
noncomputable def mouseWheelLine (st : AppState) (y : ℝ) : AppState :=
  { st with zoom := st.zoom * (1 + y * (8 / 100)) }

/-- The `MouseScrollDelta::PixelDelta` arm. -/
noncomputable def mouseWheelPixel (st : AppState) (dy : ℝ) : AppState :=
  { st with zoom := st.zoom * (1 + dy * (1 / 100)) }

/-- The idle condition computed by the `MainEventsCleared` arm. -/
def isIdle (st : AppState) : Prop :=
  st.yaw_rate = 0 ∧ st.pitch_rate = 0 ∧ st.zoom_rate = 1

open Classical in
/-- The `Event::MainEventsCleared` arm: integrate the rates into the
orientation and zoom, and request a redraw (the returned flag) exactly when
the rates are not all neutral. -/
noncomputable def mainEventsCleared (st : AppState) : AppState × Bool :=
  let st' := { st with
    yaw := st.yaw + st.yaw_rate
    pitch := st.pitch + st.pitch_rate
    zoom := st.zoom * st.zoom_rate }
  (st', if isIdle st' then false else true)

/-! ## Embedding of the fragment shader and its uniforms -/

/-- The shader's `PI` constant: the decimal literal
`3.14159265358979323846264` is the floating-point approximation of `π`,
modelled exactly. -/
noncomputable def PI : ℝ := Real.pi

/-- GLSL's two-argument `atan(y, x)`. -/
noncomputable def atan2 (y x : ℝ) : ℝ :=
  if 0 < x then Real.arctan (y / x)
  else if x < 0 then
    (if 0 ≤ y then Real.arctan (y / x) + PI else Real.arctan (y / x) - PI)
  else if 0 < y then PI / 2
  else if y < 0 then -(PI / 2)
  else 0

/-- GLSL's `mod(x, y) = x - y * floor(x / y)`. -/
noncomputable def glslMod (x y : ℝ) : ℝ := x - y * (⌊x / y⌋ : ℤ)

/-- Line 106 of `main.rs`: `lambda = mod(lambda + PI, PI * 2.0) - PI`. -/
noncomputable def wrapLambda (lam : ℝ) : ℝ := glslMod (lam + PI) (PI * 2) - PI

/-- The longitude/latitude computation of the fragment shader, up to and
including the wrap of `lambda`. -/
noncomputable def lambdaPhi (aspect yaw pitch roll zoom vx vy : ℝ) : ℝ × ℝ :=
  let x := vx
  let y := vy * aspect
  let sinrot := Real.sin roll
  let cosrot := Real.cos roll
  let rot_x := x * cosrot - y * sinrot
  let rot_y := x * sinrot + y * cosrot
  let sintheta := Real.sin pitch
  let costheta := Real.cos pitch
  let a := zoom * costheta - rot_y * sintheta
  let root := Real.sqrt (rot_x * rot_x + a * a)
  let lambda := atan2 (rot_x / root) (a / root) + yaw
  let phi := Real.arctan ((rot_y * costheta + zoom * sintheta) / root)
  (wrapLambda lambda, phi)

/-- The unit texture coordinate of the fragment shader:
`coord = (0.5 + lambda / PI / 2, 0.5 + phi / PI)`. -/
noncomputable def fragCoord (aspect yaw pitch roll zoom vx vy : ℝ) : ℝ × ℝ :=
  let lp := lambdaPhi aspect yaw pitch roll zoom vx vy
  (1 / 2 + lp.1 / PI / 2, 1 / 2 + lp.2 / PI)

/-- The cropped sample position of the fragment shader:
`pos = (coord - image_offset) / image_fov`, componentwise. -/
noncomputable def fragPos (aspect yaw pitch roll zoom : ℝ) (offset fov : ℝ × ℝ)
    (vx vy : ℝ) : ℝ × ℝ :=
  let coord := fragCoord aspect yaw pitch roll zoom vx vy
  ((coord.1 - offset.1) / fov.1, (coord.2 - offset.2) / fov.2)

open Classical in
/-- The full per-fragment mapping: `none` when the vertical sample position
falls outside `[0, 1]` (the shader paints opaque black), otherwise the
position at which the texture is sampled. -/
noncomputable def fragment (aspect yaw pitch roll zoom : ℝ) (offset fov : ℝ × ℝ)
    (vx vy : ℝ) : Option (ℝ × ℝ) :=
  let pos := fragPos aspect yaw pitch roll zoom offset fov vx vy
  if pos.2 > 1 ∨ pos.2 < 0 then none else some pos

/-- The `image_offset` uniform built in the `RedrawRequested` arm:
`[meta.crop_left, 1.0 - meta.crop_top - meta.height_ratio]`. -/
def image_offset (m : PanoMeta) : ℚ × ℚ :=
  (m.crop_left, 1 - m.crop_top - m.height_ratio)

/-- The `image_fov` uniform built in the `RedrawRequested` arm:
`[meta.width_ratio, meta.height_ratio]`. -/
def image_fov (m : PanoMeta) : ℚ × ℚ :=
  (m.width_ratio, m.height_ratio)

/-- Componentwise cast of a rational pair into the reals, used to feed the
`f32` uniforms to the shader model. -/
noncomputable def toR2 (p : ℚ × ℚ) : ℝ × ℝ := ((p.1 : ℝ), (p.2 : ℝ))

/-! ## Concrete fixtures used by witnesses and counterexamples -/

/-- An XML parser that is never reached: on an empty buffer the marker
search already fails. -/
def frErr : List Nat → Except String Element := fun _ => Except.error "unused"

/-- A GPano description record carrying all seven fields as attributes, with
a non-equirectangular projection type. -/
def descC2 : Element :=
  .mk (RDF, "Description")
    [((GPANO, "UsePanoramaViewer"), "True"),
     ((GPANO, "ProjectionType"), "rectilinear"),
     ((GPANO, "CroppedAreaImageWidthPixels"), "100"),
     ((GPANO, "CroppedAreaImageHeightPixels"), "50"),
     ((GPANO, "FullPanoWidthPixels"), "200"),
     ((GPANO, "FullPanoHeightPixels"), "100"),
     ((GPANO, "CroppedAreaLeftPixels"), "10"),
     ((GPANO, "CroppedAreaTopPixels"), "20")]
    [] ""

/-- An XMP root whose `rdf:RDF` element holds `descC2`. -/
def rootC2 : Element :=
  .mk ("adobe:ns:meta/", "xmpmeta") [] [.mk (RDF, "RDF") [] [descC2] ""] ""

/-- An XML parser returning `rootC2` for whatever byte range is extracted. -/
def frC2 : List Nat → Except String Element := fun _ => Except.ok rootC2

/-- A buffer containing the XMP start and end markers back to back. -/
def bufC2 : List Nat := startPattern ++ endPattern

/-- A GPano description with an equirectangular projection, carrying the
numeric fields of the spec's end-to-end example partly as child elements and
partly as attributes. -/
def descOk : Element :=
  .mk (RDF, "Description")
    [((GPANO, "UsePanoramaViewer"), "True"),
     ((GPANO, "ProjectionType"), "equirectangular"),
     ((GPANO, "CroppedAreaImageWidthPixels"), "18710"),
     ((GPANO, "CroppedAreaImageHeightPixels"), "2961"),
     ((GPANO, "FullPanoWidthPixels"), "18710")]
    [.mk (GPANO, "FullPanoHeightPixels") [] [] "9354",
     .mk (GPANO, "CroppedAreaLeftPixels") [] [] "0",
     .mk (GPANO, "CroppedAreaTopPixels") [] [] "3190"]
    ""

/-- An XMP root whose `rdf:RDF` element holds `descOk`. -/
def rootOk : Element :=
  .mk ("adobe:ns:meta/", "xmpmeta") [] [.mk (RDF, "RDF") [] [descOk] ""] ""

/-- The descriptor computed from `descOk`'s raw fields. -/
def mOk : PanoMeta :=
  { width_ratio := (18710 : ℚ) / 18710
    height_ratio := (2961 : ℚ) / 9354
    crop_left := (0 : ℚ) / 18710
    crop_top := (3190 : ℚ) / 9354 }

/-- A child element carrying the value `5`, placed inside `eW`. -/
def childW : Element := .mk (GPANO, "CroppedAreaLeftPixels") [] [] " 5 "

/-- An element carrying `CroppedAreaLeftPixels` both as a child element
(value 5) and as an attribute (value 7), to exercise lookup precedence. -/
def eW : Element :=
  .mk (RDF, "Description") [((GPANO, "CroppedAreaLeftPixels"), "7")] [childW] ""

/-- An element carrying `CroppedAreaTopPixels` only as an attribute. -/
def eA : Element :=
  .mk (RDF, "Description") [((GPANO, "CroppedAreaTopPixels"), "11")] [] ""

/-- An element carrying no GPano fields at all. -/
def eN : Element := .mk (RDF, "Description") [] [] ""

/-- The spec's end-to-end example descriptor
`{widthRatio: 1.0, heightRatio: 0.3166, cropLeft: 0.0, cropTop: 0.3410}`. -/
def mC5 : PanoMeta :=
  { width_ratio := 1
    height_ratio := 3166 / 10000
    crop_left := 0
    crop_top := 3410 / 10000 }

/-- A loop state with an open drag session anchored at the origin, used to
instantiate drag theorems. -/
def st0 : AppState :=
  { yaw := 0, yaw_rate := 0, pitch := 0, pitch_rate := 0, zoom := 1
    zoom_rate := 1, mouse_pos := (0, 0), drag_state := some ((0, 0), (0, 0)) }

/-! ## Helper lemmas -/

theorem mbind_ok {ε α β : Type} (a : α) (f : α → Except ε β) :
    (Except.ok a : Except ε α) >>= f = f a := rfl

theorem mbind_error {ε α β : Type} (e : ε) (f : α → Except ε β) :
    (Except.error e : Except ε α) >>= f = Except.error e := rfl

theorem ebind_ok {ε α β : Type} (a : α) (f : α → Except ε β) :
    (Except.ok a : Except ε α).bind f = f a := rfl

theorem ebind_error {ε α β : Type} (e : ε) (f : α → Except ε β) :
    (Except.error e : Except ε α).bind f = Except.error e := rfl

theorem okOr_some {α : Type} (x : α) (e : String) : okOr (some x) e = Except.ok x := rfl

theorem okOr_none {α : Type} (e : String) :
    okOr (none : Option α) e = Except.error e := rfl

/-! ## Claim theorems -/

/-- C7: whenever GPano extraction succeeds, the returned descriptor's four
fields are exactly the ratios `croppedWidth/fullWidth`,
`croppedHeight/fullHeight`, `croppedLeft/fullWidth`, `croppedTop/fullHeight`
of the seven parsed integer fields of the description record. -/
theorem gpano_ratio_fields (root : Element) (m : PanoMeta)
    (h : parse_gpano root = Except.ok m) :
    ∃ d cw ch fw fh cl ct,
      findDescription root = some d ∧
      fieldString d "ProjectionType" = Except.ok "equirectangular" ∧
      fieldU32 d "CroppedAreaImageWidthPixels" = Except.ok cw ∧
      fieldU32 d "CroppedAreaImageHeightPixels" = Except.ok ch ∧
      fieldU32 d "FullPanoWidthPixels" = Except.ok fw ∧
      fieldU32 d "FullPanoHeightPixels" = Except.ok fh ∧
      fieldU32 d "CroppedAreaLeftPixels" = Except.ok cl ∧
      fieldU32 d "CroppedAreaTopPixels" = Except.ok ct ∧
      m.width_ratio = (cw : ℚ) / (fw : ℚ) ∧
      m.height_ratio = (ch : ℚ) / (fh : ℚ) ∧
      m.crop_left = (cl : ℚ) / (fw : ℚ) ∧
      m.crop_top = (ct : ℚ) / (fh : ℚ) := by
  unfold parse_gpano at h
  cases hd : findDescription root with
  | none => rw [hd, okOr_none, mbind_error] at h; exact Except.noConfusion h
  | some d =>
  rw [hd, okOr_some, mbind_ok] at h
  cases hp : fieldString d "ProjectionType" with
  | error e => rw [hp, mbind_error] at h; exact Except.noConfusion h
  | ok p =>
  rw [hp, mbind_ok] at h
  by_cases hpe : p = "equirectangular"
  · subst hpe
    simp only [bne_self_eq_false, Bool.false_eq_true, if_false] at h
    cases h1 : fieldU32 d "CroppedAreaImageWidthPixels" with
    | error e => rw [h1, mbind_error] at h; exact Except.noConfusion h
    | ok cw =>
    rw [h1, mbind_ok] at h
    cases h2 : fieldU32 d "CroppedAreaImageHeightPixels" with
    | error e => rw [h2, mbind_error] at h; exact Except.noConfusion h
    | ok ch =>
    rw [h2, mbind_ok] at h
    cases h3 : fieldU32 d "FullPanoWidthPixels" with
    | error e => rw [h3, mbind_error] at h; exact Except.noConfusion h
    | ok fw =>
    rw [h3, mbind_ok] at h
    cases h4 : fieldU32 d "FullPanoHeightPixels" with
    | error e => rw [h4, mbind_error] at h; exact Except.noConfusion h
    | ok fh =>
    rw [h4, mbind_ok] at h
    cases h5 : fieldU32 d "CroppedAreaLeftPixels" with
    | error e => rw [h5, mbind_error] at h; exact Except.noConfusion h
    | ok cl =>
    rw [h5, mbind_ok] at h
    cases h6 : fieldU32 d "CroppedAreaTopPixels" with
    | error e => rw [h6, mbind_error] at h; exact Except.noConfusion h
    | ok ct =>
    rw [h6, mbind_ok] at h
    injection h with h
    exact ⟨d, cw, ch, fw, fh, cl, ct, rfl, hp, h1, h2, h3, h4, h5, h6,
      by rw [← h], by rw [← h], by rw [← h], by rw [← h]⟩
  · rw [show (p != "equirectangular") = true from bne_iff_ne.mpr hpe] at h
    simp only [if_true] at h
    exact Except.noConfusion h

/-- Witness for C7 at the spec's end-to-end fixture: `descOk` carries
`equirectangular`, `croppedWidth = 18710`, `croppedHeight = 2961`,
`fullWidth = 18710`, `fullHeight = 9354`, `croppedLeft = 0`,
`croppedTop = 3190`, partly as attributes and partly as child elements. -/
theorem gpano_ratio_fields_witness :
    parse_gpano rootOk = Except.ok mOk ∧
    ∃ d cw ch fw fh cl ct,
      findDescription rootOk = some d ∧
      fieldString d "ProjectionType" = Except.ok "equirectangular" ∧
      fieldU32 d "CroppedAreaImageWidthPixels" = Except.ok cw ∧
      fieldU32 d "CroppedAreaImageHeightPixels" = Except.ok ch ∧
      fieldU32 d "FullPanoWidthPixels" = Except.ok fw ∧
      fieldU32 d "FullPanoHeightPixels" = Except.ok fh ∧
      fieldU32 d "CroppedAreaLeftPixels" = Except.ok cl ∧
      fieldU32 d "CroppedAreaTopPixels" = Except.ok ct ∧
      mOk.width_ratio = (cw : ℚ) / (fw : ℚ) ∧
      mOk.height_ratio = (ch : ℚ) / (fh : ℚ) ∧
      mOk.crop_left = (cl : ℚ) / (fw : ℚ) ∧
      mOk.crop_top = (ct : ℚ) / (fh : ℚ) :=
  ⟨rfl, gpano_ratio_fields rootOk mOk rfl⟩

/-- C1 (amended): when the GPano pipeline fails, `parse` substitutes the
full-sphere descriptor exactly when the integer-truncated half width equals
the height (`w / 2 = h`), and propagates the original error otherwise. -/
theorem parse_fallback_integer_halving
    (fromReader : List Nat → Except String Element) (buf : List Nat)
    (w h : Nat) (e : String)
    (hfail : (find_xmp fromReader buf).bind parse_gpano = Except.error e) :
    (w / 2 = h → parse fromReader buf (w, h) =
      Except.ok { width_ratio := 1, height_ratio := 1, crop_left := 0, crop_top := 0 }) ∧
    (w / 2 ≠ h → parse fromReader buf (w, h) = Except.error e) := by
  constructor
  · intro hw
    simp only [parse]
    rw [hfail]
    simp [isErrB, hw]
  · intro hw
    simp only [parse]
    rw [hfail]
    simp only [isErrB, Bool.true_and]
    rw [show ((w, h).1 / 2 == (w, h).2) = false from beq_eq_false_iff_ne.mpr hw]
    simp only [Bool.false_eq_true, if_false]

/-- Witness for C1 at concrete dimensions: an empty buffer fails extraction;
4000×2000 receives the fallback descriptor, 4003×2000 surfaces the error. -/
theorem parse_fallback_integer_halving_witness :
    parse frErr [] (4000, 2000) =
      Except.ok { width_ratio := 1, height_ratio := 1, crop_left := 0, crop_top := 0 } ∧
    parse frErr [] (4003, 2000) = Except.error "No XMP found in image" :=
  ⟨(parse_fallback_integer_halving frErr [] 4000 2000 "No XMP found in image"
      rfl).1 (by decide),
   (parse_fallback_integer_halving frErr [] 4003 2000 "No XMP found in image"
      rfl).2 (by decide)⟩

/-- Counterexample to C1 as stated: on the empty buffer GPano extraction
fails and 4001 is not twice 2000, yet `parse` at 4001×2000 replaces the
error by the fallback descriptor instead of surfacing it, because the source
compares with truncating integer division (`w / 2 == h`). -/
theorem parse_fallback_counterexample :
    (find_xmp frErr []).bind parse_gpano = Except.error "No XMP found in image" ∧
    (4001 : Nat) ≠ 2 * 2000 ∧
    parse frErr [] (4001, 2000) =
      Except.ok { width_ratio := 1, height_ratio := 1, crop_left := 0, crop_top := 0 } :=
  ⟨rfl, by decide, rfl⟩

/-- C2 (amended): if the XMP block parses to a document whose description
record carries all seven fields and a `ProjectionType` other than
`equirectangular`, `parse` surfaces the `Unsupported projection type` error
naming that value, for every dimension pair with `w / 2 ≠ h`. -/
theorem parse_unsupported_projection_surfaced
    (fromReader : List Nat → Except String Element) (buf : List Nat)
    (root d : Element) (p : String) (w h : Nat)
    (hx : find_xmp fromReader buf = Except.ok root)
    (hd : findDescription root = some d)
    (hp : fieldString d "ProjectionType" = Except.ok p)
    (_hcw : ∃ v, fieldU32 d "CroppedAreaImageWidthPixels" = Except.ok v)
    (_hch : ∃ v, fieldU32 d "CroppedAreaImageHeightPixels" = Except.ok v)
    (_hfw : ∃ v, fieldU32 d "FullPanoWidthPixels" = Except.ok v)
    (_hfh : ∃ v, fieldU32 d "FullPanoHeightPixels" = Except.ok v)
    (_hcl : ∃ v, fieldU32 d "CroppedAreaLeftPixels" = Except.ok v)
    (_hct : ∃ v, fieldU32 d "CroppedAreaTopPixels" = Except.ok v)
    (hne : p ≠ "equirectangular")
    (hwh : w / 2 ≠ h) :
    parse fromReader buf (w, h) =
      Except.error ("Unsupported projection type " ++ p) := by
  have hg : parse_gpano root = Except.error ("Unsupported projection type " ++ p) := by
    unfold parse_gpano
    rw [hd, okOr_some, mbind_ok, hp, mbind_ok,
      show (p != "equirectangular") = true from bne_iff_ne.mpr hne]
    simp only [if_true]
  simp only [parse]
  rw [hx, ebind_ok, hg]
  simp only [isErrB, Bool.true_and]
  rw [show ((w, h).1 / 2 == (w, h).2) = false from beq_eq_false_iff_ne.mpr hwh]
  simp only [Bool.false_eq_true, if_false]

/-- Witness for C2 at the concrete fixture `rootC2` (all seven fields
present, `ProjectionType = "rectilinear"`) and dimensions 4×1. -/
theorem parse_unsupported_projection_surfaced_witness :
    parse frC2 bufC2 (4, 1) =
      Except.error "Unsupported projection type rectilinear" :=
  parse_unsupported_projection_surfaced frC2 bufC2 rootC2 descC2 "rectilinear" 4 1
    rfl rfl rfl ⟨100, rfl⟩ ⟨50, rfl⟩ ⟨200, rfl⟩ ⟨100, rfl⟩ ⟨10, rfl⟩ ⟨20, rfl⟩
    (by decide) (by decide)

/-- Counterexample to C2 as stated: for the dimension pair 2×1 the same
failing input is not surfaced as `UnsupportedProjection` — the caller
fallback replaces it with the full-sphere descriptor, so the error does not
propagate for every dimension pair. -/
theorem unsupported_projection_counterexample :
    find_xmp frC2 bufC2 = Except.ok rootC2 ∧
    findDescription rootC2 = some descC2 ∧
    fieldString descC2 "ProjectionType" = Except.ok "rectilinear" ∧
    fieldU32 descC2 "CroppedAreaImageWidthPixels" = Except.ok 100 ∧
    fieldU32 descC2 "CroppedAreaImageHeightPixels" = Except.ok 50 ∧
    fieldU32 descC2 "FullPanoWidthPixels" = Except.ok 200 ∧
    fieldU32 descC2 "FullPanoHeightPixels" = Except.ok 100 ∧
    fieldU32 descC2 "CroppedAreaLeftPixels" = Except.ok 10 ∧
    fieldU32 descC2 "CroppedAreaTopPixels" = Except.ok 20 ∧
    "rectilinear" ≠ "equirectangular" ∧
    parse frC2 bufC2 (2, 1) =
      Except.ok { width_ratio := 1, height_ratio := 1, crop_left := 0, crop_top := 0 } :=
  ⟨rfl, rfl, rfl, rfl, rfl, rfl, rfl, rfl, rfl, by decide, rfl⟩

/-- C8: the per-field lookup reads a same-named child element's text first,
consults the same-named attribute only when no such child exists, parses the
selected source, and reports `Missing GPano:` naming the field when the
field is absent from both places. -/
theorem field_lookup_precedence {α : Type} (p : String → Option α)
    (e : Element) (tag : String) :
    (∀ c, e.find (GPANO, tag) = some c →
      field p e tag =
        match p (rustTrim c.text) with
        | some x => Except.ok x
        | none => Except.error ("Missing GPano:" ++ tag)) ∧
    (∀ s, e.find (GPANO, tag) = none → e.get_attr (GPANO, tag) = some s →
      field p e tag =
        match p (rustTrim s) with
        | some x => Except.ok x
        | none => Except.error ("Missing GPano:" ++ tag)) ∧
    (e.find (GPANO, tag) = none → e.get_attr (GPANO, tag) = none →
      field p e tag = Except.error ("Missing GPano:" ++ tag)) := by
  refine ⟨?_, ?_, ?_⟩
  · intro c hc
    unfold field
    rw [hc]
    rfl
  · intro s hc ha
    unfold field
    rw [hc, ha]
    rfl
  · intro hc ha
    unfold field
    rw [hc, ha]
    rfl

/-- Witness for C8: `eW` carries `CroppedAreaLeftPixels` both as a child
element (text `" 5 "`) and as an attribute (`"7"`) and the child wins; `eA`
carries `CroppedAreaTopPixels` only as an attribute; `eN` carries nothing
and yields the missing-field error. -/
theorem field_lookup_precedence_witness :
    fieldU32 eW "CroppedAreaLeftPixels" = Except.ok 5 ∧
    fieldU32 eA "CroppedAreaTopPixels" = Except.ok 11 ∧
    fieldU32 eN "CroppedAreaTopPixels" =
      Except.error "Missing GPano:CroppedAreaTopPixels" := by
  refine ⟨?_, ?_, ?_⟩
  · exact ((field_lookup_precedence parseU32 eW "CroppedAreaLeftPixels").1
      childW rfl).trans rfl
  · exact ((field_lookup_precedence parseU32 eA "CroppedAreaTopPixels").2.1
      "11" rfl rfl).trans rfl
  · exact (field_lookup_precedence parseU32 eN "CroppedAreaTopPixels").2.2 rfl rfl

theorem cursorMoved_drag_state (st : AppState) (px py w h : ℝ) :
    (cursorMoved st px py w h).drag_state = st.drag_state := by
  cases hd : st.drag_state with
  | none => simp [cursorMoved, hd]
  | some d => obtain ⟨⟨ax, ay⟩, sy, sp⟩ := d; simp [cursorMoved, hd]

theorem cursorMoved_overwrite (st : AppState) (d : (ℝ × ℝ) × ℝ × ℝ)
    (hd : st.drag_state = some d) (px py qx qy w h : ℝ) :
    cursorMoved (cursorMoved st px py w h) qx qy w h = cursorMoved st qx qy w h := by
  obtain ⟨⟨ax, ay⟩, sy, sp⟩ := d
  simp [cursorMoved, hd]

/-- C3: while a drag session is open, every pointer move recomputes yaw as
`(atan anchor.x - atan current.x) / zoom + anchor.yaw` and pitch as
`(atan current.y - atan anchor.y) / zoom + anchor.pitch` from the session's
anchor (the current position being the normalized pointer coordinates), and
consequently a sequence of moves inside one session yields exactly the state
of the final move alone. -/
theorem drag_recompute_from_anchor :
    (∀ (st : AppState) (px py w h ax ay syaw spitch : ℝ),
      st.drag_state = some ((ax, ay), (syaw, spitch)) →
      (cursorMoved st px py w h).yaw
        = (Real.arctan ax - Real.arctan (px / w * 2 - 1)) / st.zoom + syaw ∧
      (cursorMoved st px py w h).pitch
        = (Real.arctan ((py / h * 2 - 1) * (h / w)) - Real.arctan ay) / st.zoom
            + spitch) ∧
    (∀ (st : AppState) (w h : ℝ) (d : (ℝ × ℝ) × ℝ × ℝ)
      (moves : List (ℝ × ℝ)) (m : ℝ × ℝ),
      st.drag_state = some d →
      List.foldl (fun s q => cursorMoved s q.1 q.2 w h) st (moves ++ [m])
        = cursorMoved st m.1 m.2 w h) := by
  constructor
  · intro st px py w h ax ay syaw spitch hd
    constructor <;> simp [cursorMoved, hd]
  · intro st w h d moves m hd
    induction moves generalizing st with
    | nil => rfl
    | cons q ms ih =>
      have h1 : (cursorMoved st q.1 q.2 w h).drag_state = some d := by
        rw [cursorMoved_drag_state, hd]
      calc List.foldl (fun s q => cursorMoved s q.1 q.2 w h) st ((q :: ms) ++ [m])
          = List.foldl (fun s q => cursorMoved s q.1 q.2 w h)
              (cursorMoved st q.1 q.2 w h) (ms ++ [m]) := rfl
        _ = cursorMoved (cursorMoved st q.1 q.2 w h) m.1 m.2 w h := ih _ h1
        _ = cursorMoved st m.1 m.2 w h :=
            cursorMoved_overwrite st d hd q.1 q.2 m.1 m.2 w h

/-- Witness for C3 at the concrete state `st0` (session anchored at the
origin): a single move to raw position `(1, 1)` in a 2×2 viewport, and a
three-move sequence ending at that position collapsing to it. -/
theorem drag_recompute_from_anchor_witness :
    (cursorMoved st0 1 1 2 2).yaw
      = (Real.arctan 0 - Real.arctan ((1 : ℝ) / 2 * 2 - 1)) / st0.zoom + 0 ∧
    List.foldl (fun s q => cursorMoved s q.1 q.2 (2 : ℝ) 2) st0
        ([(0, 0), (2, 2)] ++ [(1, 1)])
      = cursorMoved st0 1 1 2 2 :=
  ⟨(drag_recompute_from_anchor.1 st0 1 1 2 2 0 0 0 0 rfl).1,
   drag_recompute_from_anchor.2 st0 2 2 ((0, 0), (0, 0)) [(0, 0), (2, 2)] (1, 1) rfl⟩

/-- C9: a pointer-down immediately followed by a pointer-up, a pointer move
with no open drag session, and a focus loss during a drag session all leave
yaw, pitch, zoom and the three rates unchanged; only the drag session (and,
for a move, the stored pointer position) is touched. -/
theorem pointer_events_preserve_camera :
    (∀ st : AppState,
      (mouseInput (mouseInput st .pressed) .released).yaw = st.yaw ∧
      (mouseInput (mouseInput st .pressed) .released).pitch = st.pitch ∧
      (mouseInput (mouseInput st .pressed) .released).zoom = st.zoom ∧
      (mouseInput (mouseInput st .pressed) .released).yaw_rate = st.yaw_rate ∧
      (mouseInput (mouseInput st .pressed) .released).pitch_rate = st.pitch_rate ∧
      (mouseInput (mouseInput st .pressed) .released).zoom_rate = st.zoom_rate ∧
      (mouseInput (mouseInput st .pressed) .released).mouse_pos = st.mouse_pos ∧
      (mouseInput (mouseInput st .pressed) .released).drag_state = none) ∧
    (∀ (st : AppState) (px py w h : ℝ), st.drag_state = none →
      (cursorMoved st px py w h).yaw = st.yaw ∧
      (cursorMoved st px py w h).pitch = st.pitch ∧
      (cursorMoved st px py w h).zoom = st.zoom ∧
      (cursorMoved st px py w h).yaw_rate = st.yaw_rate ∧
      (cursorMoved st px py w h).pitch_rate = st.pitch_rate ∧
      (cursorMoved st px py w h).zoom_rate = st.zoom_rate ∧
      (cursorMoved st px py w h).drag_state = none) ∧
    (∀ (st : AppState) (d : (ℝ × ℝ) × ℝ × ℝ), st.drag_state = some d →
      focused st false = { st with drag_state := none }) := by
  refine ⟨fun st => ⟨rfl, rfl, rfl, rfl, rfl, rfl, rfl, rfl⟩,
    fun st px py w h hnone => ?_, fun st d _ => rfl⟩
  simp [cursorMoved, hnone]

/-- Witness for C9: a move at the dragless variant of `st0` leaves yaw at 0,
and a focus loss at `st0` only clears the session. -/
theorem pointer_events_preserve_camera_witness :
    (cursorMoved { st0 with drag_state := none } 1 1 2 2).yaw = 0 ∧
    focused st0 false = { st0 with drag_state := none } :=
  ⟨(pointer_events_preserve_camera.2.1 { st0 with drag_state := none }
      1 1 2 2 rfl).1,
   pointer_events_preserve_camera.2.2 st0 ((0, 0), (0, 0)) rfl⟩

/-- C10: each axis has one shared rate field and any release on the axis
resets it to the neutral value unconditionally — in particular pressing one
direction, then pressing and releasing the opposite key of the same axis,
leaves the rate neutral rather than restoring the first key's rate. -/
theorem key_release_resets_rate (st : AppState) :
    (keyboardInput st (some .left) .released).yaw_rate = 0 ∧
    (keyboardInput st (some .right) .released).yaw_rate = 0 ∧
    (keyboardInput st (some .up) .released).pitch_rate = 0 ∧
    (keyboardInput st (some .down) .released).pitch_rate = 0 ∧
    (keyboardInput st (some .pageUp) .released).zoom_rate = 1 ∧
    (keyboardInput st (some .pageDown) .released).zoom_rate = 1 ∧
    (keyboardInput (keyboardInput (keyboardInput st (some .left) .pressed)
        (some .right) .pressed) (some .right) .released).yaw_rate = 0 ∧
    (keyboardInput (keyboardInput (keyboardInput st (some .down) .pressed)
        (some .up) .pressed) (some .up) .released).pitch_rate = 0 ∧
    (keyboardInput (keyboardInput (keyboardInput st (some .pageUp) .pressed)
        (some .pageDown) .pressed) (some .pageDown) .released).zoom_rate = 1 :=
  ⟨rfl, rfl, rfl, rfl, rfl, rfl, rfl, rfl, rfl⟩

open Classical in
/-- C6: each tick integrates the rates (`yaw += yawRate`,
`pitch += pitchRate`, `zoom *= zoomRate`); the tick is idle exactly when all
three rates are neutral, and a redraw is requested exactly on non-idle
ticks. -/
theorem tick_integration_idle (st : AppState) :
    (mainEventsCleared st).1.yaw = st.yaw + st.yaw_rate ∧
    (mainEventsCleared st).1.pitch = st.pitch + st.pitch_rate ∧
    (mainEventsCleared st).1.zoom = st.zoom * st.zoom_rate ∧
    (isIdle (mainEventsCleared st).1 ↔
      st.yaw_rate = 0 ∧ st.pitch_rate = 0 ∧ st.zoom_rate = 1) ∧
    ((mainEventsCleared st).2 = false ↔
      st.yaw_rate = 0 ∧ st.pitch_rate = 0 ∧ st.zoom_rate = 1) ∧
    ((mainEventsCleared st).2 = true ↔
      ¬(st.yaw_rate = 0 ∧ st.pitch_rate = 0 ∧ st.zoom_rate = 1)) := by
  have hb : (mainEventsCleared st).2
      = if isIdle (mainEventsCleared st).1 then false else true := rfl
  have hiff : isIdle (mainEventsCleared st).1 ↔
      (st.yaw_rate = 0 ∧ st.pitch_rate = 0 ∧ st.zoom_rate = 1) := Iff.rfl
  refine ⟨rfl, rfl, rfl, hiff, ?_, ?_⟩
  · by_cases h : isIdle (mainEventsCleared st).1
    · rw [hb, if_pos h]
      simpa using hiff.mp h
    · rw [hb, if_neg h]
      simpa using fun hc => h (hiff.mpr hc)
  · by_cases h : isIdle (mainEventsCleared st).1
    · rw [hb, if_pos h]
      simpa using hiff.mp h
    · rw [hb, if_neg h]
      simpa using fun hc => h (hiff.mpr hc)

theorem glslMod_eq_fract (x y : ℝ) (hy : y ≠ 0) :
    glslMod x y = y * Int.fract (x / y) := by
  unfold glslMod Int.fract
  rw [mul_sub, mul_div_cancel₀ _ hy]

theorem glslMod_bounds (x y : ℝ) (hy : 0 < y) :
    0 ≤ glslMod x y ∧ glslMod x y < y := by
  rw [glslMod_eq_fract x y hy.ne']
  refine ⟨mul_nonneg hy.le (Int.fract_nonneg _), ?_⟩
  calc y * Int.fract (x / y) < y * 1 := (mul_lt_mul_left hy).mpr (Int.fract_lt_one _)
    _ = y := mul_one y

/-- C4: the shader's longitude wrap maps every real input into the half-open
interval `[-π, π)`, and an unwrapped longitude of exactly `+π` lands on
`-π`. -/
theorem wrap_lambda_range :
    (∀ lam : ℝ, -PI ≤ wrapLambda lam ∧ wrapLambda lam < PI) ∧
    wrapLambda PI = -PI := by
  have hpi2 : (0 : ℝ) < PI * 2 := by
    have := Real.pi_pos
    unfold PI
    linarith
  constructor
  · intro lam
    have hb := glslMod_bounds (lam + PI) (PI * 2) hpi2
    unfold wrapLambda
    constructor
    · linarith [hb.1]
    · linarith [hb.2]
  · unfold wrapLambda glslMod
    have h1 : (PI + PI) / (PI * 2) = 1 := by
      rw [div_eq_one_iff_eq hpi2.ne']
      ring
    rw [h1]
    simp only [Int.floor_one, Int.cast_one, mul_one]
    ring

theorem atan2_zero_one : atan2 0 1 = 0 := by
  unfold atan2
  rw [if_pos (by norm_num : (0 : ℝ) < 1)]
  simp [Real.arctan_zero]

theorem wrapLambda_zero : wrapLambda 0 = 0 := by
  have hpi2 : (0 : ℝ) < PI * 2 := by
    have := Real.pi_pos
    unfold PI
    linarith
  unfold wrapLambda glslMod
  rw [zero_add]
  have h1 : PI / (PI * 2) = 1 / 2 := by
    rw [div_eq_div_iff hpi2.ne' two_ne_zero]
    ring
  have hf : ⌊(1 : ℝ) / 2⌋ = 0 := by
    rw [Int.floor_eq_zero_iff, Set.mem_Ico]
    constructor <;> norm_num
  rw [h1, hf]
  simp

theorem lambdaPhi_center (aspect : ℝ) : lambdaPhi aspect 0 0 0 1 0 0 = (0, 0) := by
  unfold lambdaPhi
  simp only [Real.sin_zero, Real.cos_zero, zero_mul, mul_zero, mul_one, one_mul,
    sub_zero, sub_self, add_zero, zero_add, zero_div, div_one, Real.sqrt_one,
    Real.arctan_zero, atan2_zero_one, wrapLambda_zero]

theorem fragCoord_center (aspect : ℝ) : fragCoord aspect 0 0 0 1 0 0 = (1 / 2, 1 / 2) := by
  simp only [fragCoord]
  rw [lambdaPhi_center]
  simp

/-- C5: the crop mapping subtracts the uniform offset
`(cropLeft, 1 - cropTop - heightRatio)` from the unit texture coordinate and
divides componentwise by `(widthRatio, heightRatio)`; at the spec's example
descriptor with the neutral camera and the screen center, `lambda` and `phi`
are 0, `coord` is `(0.5, 0.5)`, and the sampled position lies strictly
inside the unit square. -/
theorem crop_mapping_center_sample :
    (∀ (m : PanoMeta) (aspect yaw pitch roll zoom vx vy : ℝ),
      (fragPos aspect yaw pitch roll zoom (toR2 (image_offset m))
          (toR2 (image_fov m)) vx vy).1
        = ((fragCoord aspect yaw pitch roll zoom vx vy).1 - (m.crop_left : ℝ))
            / (m.width_ratio : ℝ) ∧
      (fragPos aspect yaw pitch roll zoom (toR2 (image_offset m))
          (toR2 (image_fov m)) vx vy).2
        = ((fragCoord aspect yaw pitch roll zoom vx vy).2
            - (1 - (m.crop_top : ℝ) - (m.height_ratio : ℝ)))
            / (m.height_ratio : ℝ)) ∧
    (∀ aspect : ℝ,
      lambdaPhi aspect 0 0 0 1 0 0 = (0, 0) ∧
      fragCoord aspect 0 0 0 1 0 0 = (1 / 2, 1 / 2) ∧
      fragment aspect 0 0 0 1 (toR2 (image_offset mC5)) (toR2 (image_fov mC5)) 0 0
        = some (1 / 2, 788 / 1583) ∧
      (0 : ℝ) < 1 / 2 ∧ (1 / 2 : ℝ) < 1 ∧
      (0 : ℝ) < 788 / 1583 ∧ (788 / 1583 : ℝ) < 1) := by
  constructor
  · intro m aspect yaw pitch roll zoom vx vy
    refine ⟨rfl, ?_⟩
    show ((fragCoord aspect yaw pitch roll zoom vx vy).2
        - ((1 - m.crop_top - m.height_ratio : ℚ) : ℝ)) / ((m.height_ratio : ℚ) : ℝ) = _
    push_cast
    ring
  · intro aspect
    have hpos : fragPos aspect 0 0 0 1 (toR2 (image_offset mC5))
        (toR2 (image_fov mC5)) 0 0 = (1 / 2, 788 / 1583) := by
      simp only [fragPos, toR2, image_offset, image_fov, mC5]
      rw [fragCoord_center]
      push_cast
      norm_num [Prod.ext_iff]
    refine ⟨lambdaPhi_center aspect, fragCoord_center aspect, ?_,
      by norm_num, by norm_num, by norm_num, by norm_num⟩
    simp only [fragment]
    rw [hpos]
    rw [if_neg (by norm_num)]

end Panobubble
